import Mathlib

set_option linter.unusedVariables false

/-!
Shallow embedding of the `rigging` rollout controller (package `rigging`,
files `deployment.go` and `parse.go`).

The remote control-plane client is modelled as a record of pure response
functions; every controller operation returns its result together with the
list of remote calls it issued (the event trace), so that call ordering and
the exact documents / selectors submitted are observable in theorems.

Go `int32` counters are modelled as `Int` (they are only compared, never
subject to overflow here).  `trace.Wrap` decorates an error with diagnostic
context without changing its identity or classification, so it is modelled
as the identity on errors.  Logging is not modelled.
-/

namespace Rigging

/-- Error taxonomy of the `trace` package as used by this code:
`NotFound`, `BadParameter`, `CompareFailed`, cancellation, and all other
remote errors. -/
inductive Err where
  | notFound (msg : String)
  | badParameter (msg : String)
  | compareFailed (msg : String)
  | cancelled (msg : String)
  | other (msg : String)
deriving Repr, DecidableEq

/-- `trace.IsNotFound`. -/
def Err.isNotFound : Err → Bool
  | .notFound _ => true
  | _ => false

/-- Whether an error is a `trace.CompareFailed` (retryable mismatch). -/
def Err.isCompareFailed : Err → Bool
  | .compareFailed _ => true
  | _ => false

/-- `api.ObjectReference`, restricted to the fields the code reads. -/
structure ObjectReference where
  kind : String
  uid : String
deriving Repr, DecidableEq

/-- `api.SerializedReference`: the record stored under the created-by
annotation on a pod. -/
structure SerializedReference where
  reference : ObjectReference
deriving Repr, DecidableEq

/-- `unversioned.LabelSelector`, restricted to `MatchLabels`. -/
structure LabelSelector where
  matchLabels : List (String × String)
deriving Repr, DecidableEq

/-- `v1beta1.DeploymentSpec`, restricted to the fields the code reads:
`Selector` (a nullable pointer) and `Replicas` (a nullable pointer,
defaulting to 1 in the status check). -/
structure DeploymentSpec where
  selector : Option LabelSelector
  replicas : Option Int
deriving Repr, DecidableEq

/-- `v1beta1.DeploymentStatus`, restricted to `UpdatedReplicas`. -/
structure DeploymentStatus where
  updatedReplicas : Int
deriving Repr, DecidableEq

/-- `v1beta1.Deployment`: kind plus object metadata (namespace, name, UID,
self link, resource version) plus spec and status.  The Go field
`Namespace` is rendered `nspace` because `namespace` is a Lean keyword. -/
structure Deployment where
  kind : String
  nspace : String
  name : String
  uid : String
  selfLink : String
  resourceVersion : String
  spec : DeploymentSpec
  status : DeploymentStatus
deriving Repr, DecidableEq

/-- `v1.PodStatus`, restricted to `Phase`. -/
structure PodStatus where
  phase : String
deriving Repr, DecidableEq

/-- `v1.Pod`, restricted to name, annotations and status. -/
structure Pod where
  name : String
  annotations : List (String × String)
  status : PodStatus
deriving Repr, DecidableEq

/-- Modelled from the spec: the resource-kind constant for deployments
(`KindDeployment`, declared outside `src/`); the spec's enumerated kind
"Deployment". -/
def KindDeployment : String := "Deployment"

/-- Modelled from the spec: the well-known created-by annotation key
(`AnnotationCreatedBy`, declared outside `src/`) under which the control
plane stores the serialized ownership reference. -/
def AnnotationCreatedBy : String := "kubernetes.io/created-by"

/-- `v1.PodRunning`: the Running pod phase. -/
def PodRunning : String := "Running"

/-- Modelled from the spec: the process-wide default retry attempt budget
(`DefaultRetryAttempts`, declared outside `src/`), substituted whenever a
caller passes zero. -/
def DefaultRetryAttempts : Nat := 60

/-- Modelled from the spec: the process-wide default retry period
(`DefaultRetryPeriod`, declared outside `src/`), in nanoseconds,
substituted whenever a caller passes zero. -/
def DefaultRetryPeriod : Int := 1000000000

/-- One remote call issued by the controller, as recorded in an operation's
event trace. -/
inductive Event where
  | getDeployment (nspace name : String)
  | listPods (nspace : String) (selector : List (String × String))
  | deleteDeployment (nspace name : String)
  | deletePod (nspace name : String)
  | createDeployment (d : Deployment)
  | updateDeployment (d : Deployment)
  | sleep (period : Int)
deriving Repr, DecidableEq

/-- The control-plane client handle (`*kubernetes.Clientset`), modelled as
pure response functions: each call's outcome is a function of the arguments
the code passes. -/
structure Client where
  getDeployment : String → String → Except Err Deployment
  listPods : String → List (String × String) → Except Err (List Pod)
  deleteDeployment : String → String → Option Err
  deletePod : String → String → Option Err
  createDeployment : Deployment → Except Err Deployment
  updateDeployment : Deployment → Except Err Deployment

/-- Modelled from the spec: `convertErr` (declared outside `src/`) maps raw
client errors into the `trace` taxonomy (NotFound and the rest); in this
embedding client errors are already classified, so it is the identity. -/
def convertErr (e : Err) : Err := e

/-- `DeploymentConfig`: a reader (opaque byte stream of type `ρ`), an
already-parsed deployment, and a client handle — each optional, mirroring
the nullable Go fields. -/
structure DeploymentConfig (ρ : Type) where
  reader : Option ρ
  deployment : Option Deployment
  client : Option Client

/-- `DeploymentConfig.CheckAndSetDefaults`. -/
def DeploymentConfig.CheckAndSetDefaults {ρ : Type} (c : DeploymentConfig ρ) : Option Err :=
  if c.reader.isNone && c.deployment.isNone then
    some (.badParameter "missing parameter Reader or Deployment")
  else if c.client.isNone then
    some (.badParameter "missing parameter Client")
  else
    none

/-- `ParseDeployment` from `parse.go`: nil reader is a BadParameter,
otherwise the external YAML/JSON decoder (passed in as `decode`) runs. -/
def ParseDeployment {ρ : Type} (decode : ρ → Except Err Deployment) :
    Option ρ → Except Err Deployment
  | none => .error (.badParameter "missing reader")
  | some r => decode r

/-- `DeploymentControl`: the controller bound to one in-memory descriptor.
The client handle and decoder are passed to each operation explicitly, and
the embedded logger is not modelled. -/
structure DeploymentControl where
  deployment : Deployment
deriving Repr, DecidableEq

/-- `NewDeploymentControl`: checks the config, takes the pre-parsed
deployment if present and otherwise decodes the reader, then overwrites the
document's `Kind` with `KindDeployment`. -/
def NewDeploymentControl {ρ : Type} (decode : ρ → Except Err Deployment)
    (config : DeploymentConfig ρ) : Except Err DeploymentControl :=
  match config.CheckAndSetDefaults with
  | some e => .error e
  | none =>
    let rcE : Except Err Deployment :=
      match config.deployment with
      | some rc => .ok rc
      | none => ParseDeployment decode config.reader
    match rcE with
    | .error e => .error e
    | .ok rc => .ok { deployment := { rc with kind := KindDeployment } }

/-- The label set built at the top of `collectPods` from the stored
descriptor's `Spec.Selector.MatchLabels` (empty when the selector pointer
is nil). -/
def selectorSet (d : Deployment) : List (String × String) :=
  match d.spec.selector with
  | none => []
  | some sel => sel.matchLabels

/-- The filtering loop of `collectPods` over the listed pods: skip a pod
with no created-by annotation, skip a pod whose annotation fails to parse,
keep a pod whose parsed reference has the Deployment kind and the live
resource's UID.  `parse` is the external `ParseSerializedReference`
decoder. -/
def collectLoop (parse : String → Except Err SerializedReference) (uid : String) :
    List Pod → List Pod
  | [] => []
  | pod :: rest =>
    match pod.annotations.lookup AnnotationCreatedBy with
    | none => collectLoop parse uid rest
    | some createdBy =>
      match parse createdBy with
      | .error _ => collectLoop parse uid rest
      | .ok ref =>
        if ref.reference.kind == KindDeployment && ref.reference.uid == uid then
          pod :: collectLoop parse uid rest
        else
          collectLoop parse uid rest

/-- `DeploymentControl.collectPods`: lists pods in the LIVE resource's
namespace using the label selector of the STORED descriptor, then keeps the
pods whose ownership annotation matches the Deployment kind and the live
resource's UID. -/
def DeploymentControl.collectPods (c : DeploymentControl) (client : Client)
    (parse : String → Except Err SerializedReference) (deployment : Deployment) :
    Except Err (List Pod) × List Event :=
  let set := selectorSet c.deployment
  match client.listPods deployment.nspace set with
  | .error e => (.error e, [Event.listPods deployment.nspace set])
  | .ok podList =>
    (.ok (collectLoop parse deployment.uid podList), [Event.listPods deployment.nspace set])

/-- The pod-deletion loop at the end of `Delete`: delete each pod by name
in the stored descriptor's namespace, stopping at the first error. -/
def deletePodsLoop (client : Client) (nspace : String) :
    List Pod → Option Err × List Event
  | [] => (none, [])
  | pod :: rest =>
    match client.deletePod nspace pod.name with
    | some e => (some e, [Event.deletePod nspace pod.name])
    | none =>
      let r := deletePodsLoop client nspace rest
      (r.1, Event.deletePod nspace pod.name :: r.2)

/-- `DeploymentControl.Delete`: fetch the live resource, resolve its owned
pods, delete the resource, then delete each resolved pod.  The `cascade`
flag only selects a log line in the source and has no modelled effect. -/
def DeploymentControl.Delete (c : DeploymentControl) (client : Client)
    (parse : String → Except Err SerializedReference) (cascade : Bool) :
    Option Err × List Event :=
  match client.getDeployment c.deployment.nspace c.deployment.name with
  | .error e => (some e, [Event.getDeployment c.deployment.nspace c.deployment.name])
  | .ok currentDeployment =>
    let collected := c.collectPods client parse currentDeployment
    let evs := Event.getDeployment c.deployment.nspace c.deployment.name :: collected.2
    match collected.1 with
    | .error e => (some e, evs)
    | .ok currentPods =>
      match client.deleteDeployment c.deployment.nspace c.deployment.name with
      | some e =>
        (some e, evs ++ [Event.deleteDeployment c.deployment.nspace c.deployment.name])
      | none =>
        let r := deletePodsLoop client c.deployment.nspace currentPods
        (r.1,
          evs ++ Event.deleteDeployment c.deployment.nspace c.deployment.name :: r.2)

/-- `DeploymentControl.Upsert`: clear the descriptor's UID, self link and
resource version; get by name; NotFound means create, success means update
(full replace), any other get error is returned.  Returns the mutated
controller (the receiver is a pointer in Go) with the result and trace. -/
def DeploymentControl.Upsert (c : DeploymentControl) (client : Client) :
    DeploymentControl × Option Err × List Event :=
  let d := { c.deployment with uid := "", selfLink := "", resourceVersion := "" }
  let c' : DeploymentControl := { deployment := d }
  let getEv := Event.getDeployment d.nspace d.name
  match client.getDeployment d.nspace d.name with
  | .error e =>
    let e := convertErr e
    if !e.isNotFound then
      (c', some e, [getEv])
    else
      match client.createDeployment d with
      | .error ce => (c', some (convertErr ce), [getEv, Event.createDeployment d])
      | .ok _ => (c', none, [getEv, Event.createDeployment d])
  | .ok _ =>
    match client.updateDeployment d with
    | .error ue => (c', some (convertErr ue), [getEv, Event.updateDeployment d])
    | .ok _ => (c', none, [getEv, Event.updateDeployment d])

/-- Modelled from the spec: the bounded-retry engine `retry` (declared
outside `src/`).  Runs `action` up to the remaining attempt count; success
ends the loop; an error on the last attempt is returned; otherwise the
engine sleeps for `period` (pre-emptible: a cancelled context aborts with a
cancellation error before the next attempt) and retries.  `idx` numbers the
attempts so a stateful action can be modelled. -/
def retryGo (cancelled : Bool) (period : Int)
    (action : Nat → Option Err × List Event) : Nat → Nat → Option Err × List Event
  | _, 0 => (none, [])
  | idx, n + 1 =>
    let a := action idx
    match a.1 with
    | none => (none, a.2)
    | some e =>
      if n = 0 then
        (some e, a.2)
      else if cancelled then
        (some (.cancelled "context cancelled"), a.2)
      else
        let r := retryGo cancelled period action (idx + 1) n
        (r.1, a.2 ++ Event.sleep period :: r.2)

/-- Modelled from the spec: entry point of the retry engine. -/
def retry (cancelled : Bool) (attempts : Nat) (period : Int)
    (action : Nat → Option Err × List Event) : Option Err × List Event :=
  retryGo cancelled period action 0 attempts

/-- The retry action literal inside `DeploymentControl.Status`: fetch the
live resource (an error here fails the attempt with that error); compare
its `UpdatedReplicas` against the live `Replicas` (defaulting to 1 when the
pointer is nil), a mismatch being a CompareFailed; then collect the owned
pods and require every phase to be Running, a non-Running pod being a
CompareFailed. -/
def DeploymentControl.statusCheck (c : DeploymentControl) (client : Client)
    (parse : String → Except Err SerializedReference) : Option Err × List Event :=
  let getEv := Event.getDeployment c.deployment.nspace c.deployment.name
  match client.getDeployment c.deployment.nspace c.deployment.name with
  | .error e => (some e, [getEv])
  | .ok currentDeployment =>
    let replicas : Int := currentDeployment.spec.replicas.getD 1
    if currentDeployment.status.updatedReplicas != replicas then
      (some (.compareFailed ("expected replicas: " ++ toString replicas ++
          ", ready: " ++ toString currentDeployment.status.updatedReplicas)),
        [getEv])
    else
      let collected := c.collectPods client parse currentDeployment
      match collected.1 with
      | .error e => (some e, getEv :: collected.2)
      | .ok pods =>
        match pods.find? (fun pod => pod.status.phase != PodRunning) with
        | some pod =>
          (some (.compareFailed ("pod " ++ pod.name ++ " is not running yet: " ++
              pod.status.phase)),
            getEv :: collected.2)
        | none => (none, getEv :: collected.2)

/-- `DeploymentControl.Status`: substitute the default attempt budget and
period for zero arguments, then drive the retry engine around the status
check. -/
def DeploymentControl.Status (c : DeploymentControl) (client : Client)
    (parse : String → Except Err SerializedReference) (cancelled : Bool)
    (retryAttempts : Nat) (retryPeriod : Int) : Option Err × List Event :=
  let retryAttempts := if retryAttempts = 0 then DefaultRetryAttempts else retryAttempts
  let retryPeriod := if retryPeriod = 0 then DefaultRetryPeriod else retryPeriod
  retry cancelled retryAttempts retryPeriod (fun _ => c.statusCheck client parse)

/-- The ownership predicate of the claim: the pod carries a created-by
annotation that parses to a reference whose kind is the Deployment kind and
whose UID is the given UID. -/
def ownedByDeployment (parse : String → Except Err SerializedReference)
    (uid : String) (pod : Pod) : Bool :=
  match pod.annotations.lookup AnnotationCreatedBy with
  | none => false
  | some createdBy =>
    match parse createdBy with
    | .error _ => false
    | .ok ref => ref.reference.kind == KindDeployment && ref.reference.uid == uid

/-- The descriptor as submitted by `Upsert`: the three identity assignments
at the top of `Upsert` (UID, self link and resource version cleared). -/
def clearedForUpsert (d : Deployment) : Deployment :=
  { d with uid := "", selfLink := "", resourceVersion := "" }

/-! ### Concrete fixtures used by the witness theorems -/

/-- A concrete label selector. -/
def demoSelector : LabelSelector := { matchLabels := [("app", "demo")] }

/-- A concrete in-memory descriptor with no identity stamp. -/
def demoDescriptor : Deployment :=
  { kind := "Deployment", nspace := "default", name := "web", uid := "",
    selfLink := "", resourceVersion := "",
    spec := { selector := some demoSelector, replicas := some 3 },
    status := { updatedReplicas := 0 } }

/-- A controller over `demoDescriptor`. -/
def demoCtrl : DeploymentControl := { deployment := demoDescriptor }

/-- The live counterpart of `demoDescriptor`: UID assigned by the control
plane, rollout complete. -/
def demoLive : Deployment :=
  { demoDescriptor with uid := "uid-1", status := { updatedReplicas := 3 } }

/-- A live resource whose selector differs from the stored descriptor's. -/
def demoLiveOtherSelector : Deployment :=
  { demoLive with
    spec := { selector := some { matchLabels := [("app", "other")] },
              replicas := some 3 } }

/-- A concrete serialized-reference decoder: two recognised annotation
payloads, everything else unparsable. -/
def demoParse : String → Except Err SerializedReference := fun s =>
  if s = "ref-this" then
    .ok { reference := { kind := KindDeployment, uid := "uid-1" } }
  else if s = "ref-foreign" then
    .ok { reference := { kind := "ReplicaSet", uid := "uid-2" } }
  else
    .error (.other "unparsable")

/-- A pod owned by the live resource. -/
def podOwned1 : Pod :=
  { name := "p1", annotations := [(AnnotationCreatedBy, "ref-this")],
    status := { phase := "Running" } }

/-- A second pod owned by the live resource. -/
def podOwned2 : Pod :=
  { name := "p2", annotations := [(AnnotationCreatedBy, "ref-this")],
    status := { phase := "Running" } }

/-- A pod with a well-formed annotation naming a different owner. -/
def podForeign : Pod :=
  { name := "p3", annotations := [(AnnotationCreatedBy, "ref-foreign")],
    status := { phase := "Running" } }

/-- A pod with no created-by annotation. -/
def podNoAnn : Pod :=
  { name := "p4", annotations := [], status := { phase := "Running" } }

/-- A pod whose created-by annotation does not parse. -/
def podBadAnn : Pod :=
  { name := "p5", annotations := [(AnnotationCreatedBy, "garbage")],
    status := { phase := "Running" } }

/-- The pod list the demo client returns. -/
def demoPods : List Pod := [podOwned1, podForeign, podNoAnn, podBadAnn, podOwned2]

/-- A client where the resource exists, listing returns `demoPods`, the
resource delete succeeds, and deleting pod `p1` fails. -/
def demoClient : Client :=
  { getDeployment := fun nspace name =>
      if nspace = "default" && name = "web" then .ok demoLive
      else .error (.notFound "not found"),
    listPods := fun _ _ => .ok demoPods,
    deleteDeployment := fun _ _ => none,
    deletePod := fun _ name => if name = "p1" then some (.other "boom") else none,
    createDeployment := fun d => .ok d,
    updateDeployment := fun d => .ok d }

/-- A client where the resource does not exist. -/
def demoClientAbsent : Client :=
  { demoClient with getDeployment := fun _ _ => .error (.notFound "not found") }

/-- A client whose get fails with a non-NotFound error. -/
def demoClientBroken : Client :=
  { demoClient with getDeployment := fun _ _ => .error (.other "network") }

/-- A descriptor already carrying a stale identity stamp. -/
def staleDescriptor : Deployment :=
  { demoDescriptor with uid := "old-uid", selfLink := "link", resourceVersion := "42" }

/-- A controller over `staleDescriptor`. -/
def staleCtrl : DeploymentControl := { deployment := staleDescriptor }

/-- A decoder producing a document whose declared kind is wrong. -/
def demoDecode : String → Except Err Deployment :=
  fun _ => .ok { demoDescriptor with kind := "Garbage" }

/-- A config supplying the pre-parsed deployment (with a wrong kind). -/
def demoConfigParsed : DeploymentConfig String :=
  { reader := none,
    deployment := some { demoDescriptor with kind := "Garbage" },
    client := some demoClient }

/-- A config supplying only a reader, decoded by `demoDecode`. -/
def demoConfigReader : DeploymentConfig String :=
  { reader := some "doc", deployment := none, client := some demoClient }

/-! ### Helper lemmas -/

/-- The filtering loop of `collectPods` computes a `List.filter` by the
ownership predicate: it keeps exactly the pods whose annotation parses to a
matching reference, in list order. -/
theorem collectLoop_eq_filter (parse : String → Except Err SerializedReference)
    (uid : String) : ∀ l : List Pod,
    collectLoop parse uid l = l.filter (ownedByDeployment parse uid)
  | [] => rfl
  | pod :: rest => by
    rw [List.filter_cons]
    rcases h : pod.annotations.lookup AnnotationCreatedBy with _ | createdBy
    · have hpred : ownedByDeployment parse uid pod = false := by
        simp [ownedByDeployment, h]
      simp [collectLoop, h, hpred, collectLoop_eq_filter parse uid rest]
    · rcases hp : parse createdBy with e | ref
      · have hpred : ownedByDeployment parse uid pod = false := by
          simp [ownedByDeployment, h, hp]
        simp [collectLoop, h, hp, hpred, collectLoop_eq_filter parse uid rest]
      · have hpred : ownedByDeployment parse uid pod =
            (ref.reference.kind == KindDeployment && ref.reference.uid == uid) := by
          simp [ownedByDeployment, h, hp]
        cases hk : (ref.reference.kind == KindDeployment && ref.reference.uid == uid) <;>
          simp [collectLoop, h, hp, hpred, hk, collectLoop_eq_filter parse uid rest]

/-- Equation for `collectPods` when the list call succeeds. -/
theorem collectPods_eq_of_list_ok (c : DeploymentControl) (client : Client)
    (parse : String → Except Err SerializedReference) (live : Deployment)
    (podList : List Pod)
    (h : client.listPods live.nspace (selectorSet c.deployment) = .ok podList) :
    c.collectPods client parse live =
      (.ok (podList.filter (ownedByDeployment parse live.uid)),
        [Event.listPods live.nspace (selectorSet c.deployment)]) := by
  simp [DeploymentControl.collectPods, h, collectLoop_eq_filter]

/-- The pod-deletion loop stops at the first failing pod: it returns that
pod's error, having issued deletes only for the preceding pods and the
failing one. -/
theorem deletePodsLoop_first_error (client : Client) (nspace : String) :
    ∀ (done : List Pod) (p : Pod) (rest : List Pod) (e : Err),
    (∀ q ∈ done, client.deletePod nspace q.name = none) →
    client.deletePod nspace p.name = some e →
    deletePodsLoop client nspace (done ++ p :: rest) =
      (some e, (done ++ [p]).map (fun q => Event.deletePod nspace q.name))
  | [], p, rest, e, _, hp => by simp [deletePodsLoop, hp]
  | q :: done, p, rest, e, hdone, hp => by
    have hq : client.deletePod nspace q.name = none := hdone q (by simp)
    have ih := deletePodsLoop_first_error client nspace done p rest e
      (fun r hr => hdone r (by simp [hr])) hp
    simp [deletePodsLoop, hq, ih]

/-! ### Claim theorems -/

/-- C1: for every live deployment resource and every pod list returned by
the client, `collectPods` returns exactly the pods whose ownership
annotation parses to a reference with the Deployment kind and the live
resource's UID, in the order received from the list call; pods whose
annotation is absent or unparsable are skipped and the operation still
succeeds. -/
theorem collectPods_exact_ownership (c : DeploymentControl) (client : Client)
    (parse : String → Except Err SerializedReference) (live : Deployment)
    (podList : List Pod)
    (h : client.listPods live.nspace (selectorSet c.deployment) = .ok podList) :
    (c.collectPods client parse live).1 =
      .ok (podList.filter (ownedByDeployment parse live.uid)) := by
  rw [collectPods_eq_of_list_ok c client parse live podList h]

/-- C1 witness: on the demo fixtures, the foreign-owner pod, the
annotation-less pod and the unparsable-annotation pod are excluded and the
two owned pods are kept in list order. -/
theorem collectPods_exact_ownership_witness :
    (demoCtrl.collectPods demoClient demoParse demoLive).1 =
      .ok [podOwned1, podOwned2] := by
  have h := collectPods_exact_ownership demoCtrl demoClient demoParse demoLive
    demoPods rfl
  rw [h]
  rfl

/-- C9: the selector used by `collectPods` to list candidate pods is built
from the stored descriptor captured at construction time, for every live
argument (so a live resource with a different selector is still listed by
the stale one), while the UID used for the ownership check is the live
argument's. -/
theorem collectPods_selector_from_descriptor (c : DeploymentControl)
    (client : Client) (parse : String → Except Err SerializedReference)
    (live : Deployment) :
    (c.collectPods client parse live).2 =
      [Event.listPods live.nspace (selectorSet c.deployment)]
    ∧ ∀ podList,
        client.listPods live.nspace (selectorSet c.deployment) = .ok podList →
        (c.collectPods client parse live).1 =
          .ok (podList.filter (ownedByDeployment parse live.uid)) := by
  constructor
  · unfold DeploymentControl.collectPods
    rcases h : client.listPods live.nspace (selectorSet c.deployment) with e | podList <;>
      simp [h]
  · intro podList h
    rw [collectPods_eq_of_list_ok c client parse live podList h]

/-- C9 witness: a live resource whose selector differs from the stored one
is still listed with the stored descriptor's selector, and the owned pods
are picked by the live UID. -/
theorem collectPods_selector_from_descriptor_witness :
    (demoCtrl.collectPods demoClient demoParse demoLiveOtherSelector).2 =
      [Event.listPods "default" [("app", "demo")]]
    ∧ (demoCtrl.collectPods demoClient demoParse demoLiveOtherSelector).1 =
      .ok [podOwned1, podOwned2] := by
  constructor
  · exact (collectPods_selector_from_descriptor demoCtrl demoClient demoParse
      demoLiveOtherSelector).1
  · have h := (collectPods_selector_from_descriptor demoCtrl demoClient demoParse
      demoLiveOtherSelector).2 demoPods rfl
    rw [h]
    rfl

/-- C6: `Delete` behaves identically for any two values of the `cascade`
flag — same remote calls in the same order, same result; owned pods are
deleted unconditionally after the resource delete, the flag affecting only
an unmodelled log line. -/
theorem Delete_cascade_only_logs (c : DeploymentControl) (client : Client)
    (parse : String → Except Err SerializedReference) (cascade cascade' : Bool) :
    c.Delete client parse cascade = c.Delete client parse cascade' := rfl

/-- C7: when `Upsert`'s existence check fails with an error other than
NotFound, that same error is returned and neither create nor update is
called. -/
theorem Upsert_fetch_error_fatal (c : DeploymentControl) (client : Client)
    (e : Err)
    (hget : client.getDeployment c.deployment.nspace c.deployment.name = .error e)
    (hnf : e.isNotFound = false) :
    (c.Upsert client).2 =
      (some e, [Event.getDeployment c.deployment.nspace c.deployment.name]) := by
  simp [DeploymentControl.Upsert, hget, convertErr, hnf]

/-- C7 witness: a client whose get fails with a network error makes
`Upsert` return that error after the single get call. -/
theorem Upsert_fetch_error_fatal_witness :
    (demoCtrl.Upsert demoClientBroken).2 =
      (some (.other "network"), [Event.getDeployment "default" "web"]) :=
  Upsert_fetch_error_fatal demoCtrl demoClientBroken (.other "network") rfl rfl

/-- `Upsert` always mutates the receiver to the cleared descriptor, and its
trace is the get alone, or the get followed by exactly one create of the
cleared descriptor, or the get followed by exactly one update of it. -/
theorem Upsert_shape (c : DeploymentControl) (client : Client) :
    (c.Upsert client).1 = { deployment := clearedForUpsert c.deployment }
    ∧ ((c.Upsert client).2.2 =
        [Event.getDeployment c.deployment.nspace c.deployment.name]
      ∨ (c.Upsert client).2.2 =
        [Event.getDeployment c.deployment.nspace c.deployment.name,
         Event.createDeployment (clearedForUpsert c.deployment)]
      ∨ (c.Upsert client).2.2 =
        [Event.getDeployment c.deployment.nspace c.deployment.name,
         Event.updateDeployment (clearedForUpsert c.deployment)]) := by
  rcases hget : client.getDeployment c.deployment.nspace c.deployment.name with e | live
  · by_cases hnf : e.isNotFound = true
    · rcases hc : client.createDeployment (clearedForUpsert c.deployment) with ce | d <;>
        simp only [clearedForUpsert] at hc <;>
        simp [DeploymentControl.Upsert, clearedForUpsert, hget, convertErr, hc, hnf]
    · replace hnf : e.isNotFound = false := by simpa using hnf
      simp [DeploymentControl.Upsert, clearedForUpsert, hget, convertErr, hnf]
  · rcases hu : client.updateDeployment (clearedForUpsert c.deployment) with ue | d <;>
      simp only [clearedForUpsert] at hu <;>
      simp [DeploymentControl.Upsert, clearedForUpsert, hget, convertErr, hu]

/-- C3: when the existence check reports NotFound, `Upsert` calls create
with the in-memory descriptor (identity cleared) and never update; when the
check returns an existing resource, it calls update and never create — the
full trace in each case is exactly the get followed by the one submission. -/
theorem Upsert_create_vs_update (c : DeploymentControl) (client : Client) :
    (∀ msg,
      client.getDeployment c.deployment.nspace c.deployment.name =
        .error (.notFound msg) →
      (c.Upsert client).2.2 =
        [Event.getDeployment c.deployment.nspace c.deployment.name,
         Event.createDeployment (clearedForUpsert c.deployment)])
    ∧ ∀ live,
      client.getDeployment c.deployment.nspace c.deployment.name = .ok live →
      (c.Upsert client).2.2 =
        [Event.getDeployment c.deployment.nspace c.deployment.name,
         Event.updateDeployment (clearedForUpsert c.deployment)] := by
  constructor
  · intro msg hget
    rcases hc : client.createDeployment (clearedForUpsert c.deployment) with e | d <;>
      simp only [clearedForUpsert] at hc <;>
      simp [DeploymentControl.Upsert, clearedForUpsert, hget, convertErr,
        Err.isNotFound, hc]
  · intro live hget
    rcases hu : client.updateDeployment (clearedForUpsert c.deployment) with e | d <;>
      simp only [clearedForUpsert] at hu <;>
      simp [DeploymentControl.Upsert, clearedForUpsert, hget, convertErr, hu]

/-- C3 witness: against a client without the resource, `Upsert` issues a
create; against a client holding it, an update. -/
theorem Upsert_create_vs_update_witness :
    (demoCtrl.Upsert demoClientAbsent).2.2 =
      [Event.getDeployment "default" "web", Event.createDeployment demoDescriptor]
    ∧ (demoCtrl.Upsert demoClient).2.2 =
      [Event.getDeployment "default" "web", Event.updateDeployment demoDescriptor] := by
  constructor
  · exact (Upsert_create_vs_update demoCtrl demoClientAbsent).1 "not found" rfl
  · exact (Upsert_create_vs_update demoCtrl demoClient).2 demoLive rfl

/-- C4: `Upsert` clears the stored descriptor's UID, self link and resource
version before the existence check, and every document it submits to create
or update has those three fields empty. -/
theorem Upsert_submits_cleared_identity (c : DeploymentControl) (client : Client) :
    ((c.Upsert client).1.deployment.uid = ""
      ∧ (c.Upsert client).1.deployment.selfLink = ""
      ∧ (c.Upsert client).1.deployment.resourceVersion = "")
    ∧ ∀ doc,
      (Event.createDeployment doc ∈ (c.Upsert client).2.2
        ∨ Event.updateDeployment doc ∈ (c.Upsert client).2.2) →
      doc.uid = "" ∧ doc.selfLink = "" ∧ doc.resourceVersion = "" := by
  obtain ⟨h1, h2⟩ := Upsert_shape c client
  constructor
  · rw [h1]
    simp [clearedForUpsert]
  · intro doc hdoc
    rcases h2 with h | h | h <;> rw [h] at hdoc <;> simp at hdoc <;>
      subst hdoc <;> simp [clearedForUpsert]

/-- C4 witness: upserting a descriptor with a stale identity stamp submits
a document whose UID, self link and resource version are empty. -/
theorem Upsert_submits_cleared_identity_witness :
    demoDescriptor.uid = "" ∧ demoDescriptor.selfLink = ""
      ∧ demoDescriptor.resourceVersion = "" :=
  (Upsert_submits_cleared_identity staleCtrl demoClient).2 demoDescriptor
    (Or.inr (by decide))

/-- C5: within `Delete` the steps are strictly ordered.  A failed fetch is
fatal with no further calls.  Otherwise the owned pods are resolved (the
list call) strictly before the resource delete is issued, then the resource
is deleted, then each resolved pod is deleted in turn; a pod-deletion
failure makes `Delete` return that first error with the resource delete
already issued and the remaining pods receiving no delete call. -/
theorem Delete_ordering (c : DeploymentControl) (client : Client)
    (parse : String → Except Err SerializedReference) (cascade : Bool) :
    (∀ e,
      client.getDeployment c.deployment.nspace c.deployment.name = .error e →
      c.Delete client parse cascade =
        (some e, [Event.getDeployment c.deployment.nspace c.deployment.name]))
    ∧ ∀ live podList,
      client.getDeployment c.deployment.nspace c.deployment.name = .ok live →
      client.listPods live.nspace (selectorSet c.deployment) = .ok podList →
      (∀ e,
        client.deleteDeployment c.deployment.nspace c.deployment.name = some e →
        c.Delete client parse cascade =
          (some e,
            [Event.getDeployment c.deployment.nspace c.deployment.name,
             Event.listPods live.nspace (selectorSet c.deployment),
             Event.deleteDeployment c.deployment.nspace c.deployment.name]))
      ∧ (client.deleteDeployment c.deployment.nspace c.deployment.name = none →
        (c.Delete client parse cascade =
          ((deletePodsLoop client c.deployment.nspace
              (podList.filter (ownedByDeployment parse live.uid))).1,
            [Event.getDeployment c.deployment.nspace c.deployment.name,
             Event.listPods live.nspace (selectorSet c.deployment),
             Event.deleteDeployment c.deployment.nspace c.deployment.name] ++
            (deletePodsLoop client c.deployment.nspace
              (podList.filter (ownedByDeployment parse live.uid))).2))
        ∧ ∀ done p rest e,
          podList.filter (ownedByDeployment parse live.uid) = done ++ p :: rest →
          (∀ q ∈ done, client.deletePod c.deployment.nspace q.name = none) →
          client.deletePod c.deployment.nspace p.name = some e →
          c.Delete client parse cascade =
            (some e,
              [Event.getDeployment c.deployment.nspace c.deployment.name,
               Event.listPods live.nspace (selectorSet c.deployment),
               Event.deleteDeployment c.deployment.nspace c.deployment.name] ++
              (done ++ [p]).map
                (fun q => Event.deletePod c.deployment.nspace q.name))) := by
  constructor
  · intro e hget
    simp [DeploymentControl.Delete, hget]
  · intro live podList hget hlist
    have hcollect := collectPods_eq_of_list_ok c client parse live podList hlist
    constructor
    · intro e hdel
      simp [DeploymentControl.Delete, hget, hcollect, hdel]
    · intro hdel
      constructor
      · simp [DeploymentControl.Delete, hget, hcollect, hdel]
      · intro done p rest e hsplit hdone hp
        have hloop := deletePodsLoop_first_error client c.deployment.nspace
          done p rest e hdone hp
        simp [DeploymentControl.Delete, hget, hcollect, hdel, hsplit, hloop]

/-- C5 witness: on the demo fixtures `Delete` fetches, lists, deletes the
resource, then fails deleting the first owned pod and stops — the second
owned pod receives no delete call. -/
theorem Delete_ordering_witness :
    demoCtrl.Delete demoClient demoParse true =
      (some (.other "boom"),
        [Event.getDeployment "default" "web",
         Event.listPods "default" [("app", "demo")],
         Event.deleteDeployment "default" "web",
         Event.deletePod "default" "p1"]) := by
  have h := ((Delete_ordering demoCtrl demoClient demoParse true).2 demoLive
    demoPods rfl rfl).2 rfl
  have h2 := h.2 [] podOwned1 [podOwned2] (.other "boom") (by decide)
    (by intro q hq; cases hq) rfl
  exact h2

/-- C2: a `Status` attempt succeeds if and only if the live resource's
updated-replica counter equals the expected replica count (the live
replicas field, defaulting to 1 when unset) and every owned pod's phase is
Running; any mismatch surfaces as a retryable CompareFailed, while a
failure to fetch the live resource fails the attempt with that very
error. -/
theorem statusCheck_convergence (c : DeploymentControl) (client : Client)
    (parse : String → Except Err SerializedReference) :
    (∀ e,
      client.getDeployment c.deployment.nspace c.deployment.name = .error e →
      (c.statusCheck client parse).1 = some e)
    ∧ ∀ live podList,
      client.getDeployment c.deployment.nspace c.deployment.name = .ok live →
      client.listPods live.nspace (selectorSet c.deployment) = .ok podList →
      (((c.statusCheck client parse).1 = none) ↔
        (live.status.updatedReplicas = live.spec.replicas.getD 1
          ∧ ∀ p ∈ podList.filter (ownedByDeployment parse live.uid),
              p.status.phase = PodRunning))
      ∧ ∀ e, (c.statusCheck client parse).1 = some e →
          e.isCompareFailed = true := by
  constructor
  · intro e hget
    simp [DeploymentControl.statusCheck, hget]
  · intro live podList hget hlist
    have hcollect := collectPods_eq_of_list_ok c client parse live podList hlist
    by_cases hrep : live.status.updatedReplicas = live.spec.replicas.getD 1
    · have hbne : (live.status.updatedReplicas != live.spec.replicas.getD 1) = false := by
        simp [hrep]
      rcases hfind : (podList.filter (ownedByDeployment parse live.uid)).find?
          (fun pod => pod.status.phase != PodRunning) with _ | pod
      · have hval : (c.statusCheck client parse).1 = none := by
          simp [DeploymentControl.statusCheck, hget, hcollect, hbne, hfind]
        refine ⟨?_, ?_⟩
        · rw [hval]
          constructor
          · intro _
            refine ⟨hrep, fun p hp => ?_⟩
            have hnp := List.find?_eq_none.mp hfind p hp
            simpa using hnp
          · intro _
            rfl
        · intro e he
          rw [hval] at he
          cases he
      · have hmem := List.mem_of_find?_eq_some hfind
        have hpod := List.find?_some hfind
        have hval : (c.statusCheck client parse).1 =
            some (.compareFailed ("pod " ++ pod.name ++ " is not running yet: " ++
              pod.status.phase)) := by
          simp [DeploymentControl.statusCheck, hget, hcollect, hbne, hfind]
        refine ⟨?_, ?_⟩
        · rw [hval]
          constructor
          · intro h
            exact absurd h (by simp)
          · rintro ⟨_, hall⟩
            exact absurd (hall pod hmem) (by simpa using hpod)
        · intro e he
          rw [hval] at he
          injection he with he
          subst he
          rfl
    · have hbne : (live.status.updatedReplicas != live.spec.replicas.getD 1) = true := by
        simpa using hrep
      have hval : (c.statusCheck client parse).1 =
          some (.compareFailed ("expected replicas: " ++
            toString (live.spec.replicas.getD 1) ++ ", ready: " ++
            toString live.status.updatedReplicas)) := by
        simp [DeploymentControl.statusCheck, hget, hbne]
      refine ⟨?_, ?_⟩
      · rw [hval]
        constructor
        · intro h
          exact absurd h (by simp)
        · rintro ⟨h1, _⟩
          exact absurd h1 hrep
      · intro e he
        rw [hval] at he
        injection he with he
        subst he
        rfl

/-- C2 witness: on the demo fixtures (replicas 3, updated replicas 3, all
owned pods Running) the status check succeeds. -/
theorem statusCheck_convergence_witness :
    (demoCtrl.statusCheck demoClient demoParse).1 = none := by
  have h := (statusCheck_convergence demoCtrl demoClient demoParse).2 demoLive
    demoPods rfl rfl
  exact h.1.mpr ⟨by decide, by decide⟩

/-- C8: calling `Status` with a zero attempt budget or a zero period is the
same call — same remote calls, same sleeps, same result — as calling it
with the default constants substituted for the zero arguments. -/
theorem Status_zero_means_default (c : DeploymentControl) (client : Client)
    (parse : String → Except Err SerializedReference) (cancelled : Bool)
    (attempts : Nat) (period : Int) :
    c.Status client parse cancelled 0 period =
      c.Status client parse cancelled DefaultRetryAttempts period
    ∧ c.Status client parse cancelled attempts 0 =
      c.Status client parse cancelled attempts DefaultRetryPeriod := by
  constructor <;>
    simp [DeploymentControl.Status, DefaultRetryAttempts, DefaultRetryPeriod]

/-- C10: whenever `NewDeploymentControl` succeeds, the stored document's
kind is the Deployment kind constant, whatever kind the supplied or decoded
document declared, on both the pre-parsed path and the reader path. -/
theorem NewDeploymentControl_forces_kind {ρ : Type}
    (decode : ρ → Except Err Deployment) (config : DeploymentConfig ρ)
    (ctrl : DeploymentControl)
    (h : NewDeploymentControl decode config = .ok ctrl) :
    ctrl.deployment.kind = KindDeployment := by
  unfold NewDeploymentControl at h
  rcases hc : config.CheckAndSetDefaults with _ | e
  · rw [hc] at h
    rcases hd : config.deployment with _ | rc
    · rw [hd] at h
      rcases hp : ParseDeployment decode config.reader with e | rc
      · rw [hp] at h
        simp at h
      · rw [hp] at h
        simp only [Except.ok.injEq] at h
        subst h
        rfl
    · rw [hd] at h
      simp only [Except.ok.injEq] at h
      subst h
      rfl
  · rw [hc] at h
    simp at h

/-- C10 witness: both a config with a pre-parsed document of the wrong kind
and a config decoding its reader into the wrong kind construct a controller
whose stored kind is Deployment. -/
theorem NewDeploymentControl_forces_kind_witness :
    demoCtrl.deployment.kind = KindDeployment
    ∧ NewDeploymentControl demoDecode demoConfigParsed = .ok demoCtrl
    ∧ NewDeploymentControl demoDecode demoConfigReader = .ok demoCtrl :=
  ⟨NewDeploymentControl_forces_kind demoDecode demoConfigReader demoCtrl rfl,
    rfl, rfl⟩

end Rigging
